import Mathlib

set_option maxRecDepth 8000

/-!
Shallow embedding of the factory-efficiency-analysis pipeline.

Sources embedded:
- `src/app.py`, function `process_dataframe` (lines 287-306): efficiency
  coercion `pd.to_numeric(col.astype(str).str.rstrip(ch), errors=coerce) / 100`
  with ch the percent sign, cycle-time coercion, and the derived columns
  `CT差異 = 實際CT - 標準CT` and `CT差異率 = (CT差異 / 標準CT * 100).round(1)`.
- `src/app.py`, function `main` (lines 402-418, 463, 478-479): the station
  aggregation `groupby` with mean and count, the classification filters with
  thresholds `too_low = 0.8` and `too_high = 1.05`, the cycle-time abnormality
  filter `abs(rate) > 20`, the overall mean, and the best-station `idxmax`.
- `src/email_utils.py`, function `generate_report_data` (lines 108-136): the
  email-report normalization `astype(float) / 100` (which raises on a cell
  that does not parse) and its abnormal filter `(eff < 0.8) | (eff > 1.2)`.

Numbers are modelled as exact rationals plus the IEEE special values NaN,
plus-infinity and minus-infinity (type `PFloat`), because pandas produces
NaN for coercion failures and signed infinities for division of a nonzero
value by zero; comparisons involving NaN are false, as in IEEE and pandas.
Rounding is round-half-to-even at one decimal, as in `numpy.round`.
-/

/-- A decimal digit mapped to its value; any other character fails. -/
def digitVal (c : Char) : Option Nat :=
  if '0' ≤ c ∧ c ≤ '9' then some (c.toNat - '0'.toNat) else none

/-- Accumulate a digit string left to right; fails on a non-digit. -/
def digitsValAux (acc : Nat) : List Char → Option Nat
  | [] => some acc
  | c :: cs =>
    match digitVal c with
    | some d => digitsValAux (acc * 10 + d) cs
    | none => none

/-- Parse an unsigned decimal literal: digits with at most one dot, at
least one digit overall (`95`, `0.95`, `.5`, `5.`). -/
def parseUnsigned (cs : List Char) : Option ℚ :=
  match cs.splitOn '.' with
  | [ds] =>
    if ds.isEmpty then none
    else (digitsValAux 0 ds).map (fun n => (n : ℚ))
  | [ip, fp] =>
    if ip.isEmpty && fp.isEmpty then none
    else
      match digitsValAux 0 ip, digitsValAux 0 fp with
      | some n, some f => some ((n : ℚ) + (f : ℚ) / (10 : ℚ) ^ fp.length)
      | _, _ => none
  | _ => none

/-- Drop spaces at both ends of a character list. -/
def stripSpaces (cs : List Char) : List Char :=
  ((cs.dropWhile (fun c => c = ' ')).reverse.dropWhile (fun c => c = ' ')).reverse

/-- Numeric parsing of one cell, as done by `pd.to_numeric` and by the
Python `float` constructor on plain decimal literals: surrounding spaces
are ignored, an optional sign precedes an unsigned decimal literal.
`none` is the parse failure. -/
def parseNum (s : String) : Option ℚ :=
  match stripSpaces s.data with
  | '-' :: cs => (parseUnsigned cs).map (fun q => -q)
  | '+' :: cs => parseUnsigned cs
  | cs => parseUnsigned cs

/-- `str.rstrip` with the percent sign, as in
`df[eff].astype(str).str.rstrip(pct)` (app.py line 294, email_utils.py
line 115): removes every trailing percent character. -/
def rstripPercent (s : String) : String :=
  String.mk ((s.data.reverse.dropWhile (fun c => c = '%')).reverse)

/-- A pandas float cell: an exact rational, NaN, or a signed infinity. -/
inductive PFloat where
  | num (q : ℚ)
  | nan
  | inf
  | ninf
  deriving DecidableEq

/-- Subtraction with IEEE special values (pandas column subtraction). -/
def PFloat.sub : PFloat → PFloat → PFloat
  | nan, _ => nan
  | _, nan => nan
  | num a, num b => num (a - b)
  | num _, inf => ninf
  | num _, ninf => inf
  | inf, inf => nan
  | inf, _ => inf
  | ninf, ninf => nan
  | ninf, _ => ninf

/-- Division with IEEE special values: a nonzero value divided by zero is
a signed infinity, zero divided by zero is NaN (pandas column division). -/
def PFloat.div : PFloat → PFloat → PFloat
  | nan, _ => nan
  | _, nan => nan
  | num a, num b =>
    if b = 0 then (if 0 < a then inf else if a < 0 then ninf else nan)
    else num (a / b)
  | num _, inf => num 0
  | num _, ninf => num 0
  | inf, num b => if b < 0 then ninf else inf
  | ninf, num b => if b < 0 then inf else ninf
  | inf, _ => nan
  | ninf, _ => nan

/-- Multiplication by a rational scalar (pandas column times scalar). -/
def PFloat.mulC : PFloat → ℚ → PFloat
  | nan, _ => nan
  | num a, c => num (a * c)
  | inf, c => if 0 < c then inf else if c < 0 then ninf else nan
  | ninf, c => if 0 < c then ninf else if c < 0 then inf else nan

/-- Round to the nearest integer, ties to even, as `numpy.round` does. -/
def roundHalfEven (q : ℚ) : ℤ :=
  let f := Rat.floor q
  let r := q - (f : ℚ)
  if r < 1/2 then f
  else if (1 : ℚ)/2 < r then f + 1
  else if f % 2 = 0 then f else f + 1

/-- `.round(1)`: one decimal place; NaN and infinities pass through. -/
def PFloat.round1 : PFloat → PFloat
  | num a => num ((roundHalfEven (a * 10) : ℚ) / 10)
  | nan => nan
  | inf => inf
  | ninf => ninf

/-- Strict comparison; every comparison with NaN is false (IEEE). -/
def PFloat.blt : PFloat → PFloat → Bool
  | num a, num b => decide (a < b)
  | num _, inf => true
  | ninf, num _ => true
  | ninf, inf => true
  | _, _ => false

/-- Non-strict comparison; every comparison with NaN is false (IEEE). -/
def PFloat.ble : PFloat → PFloat → Bool
  | num a, num b => decide (a ≤ b)
  | num _, inf => true
  | ninf, num _ => true
  | ninf, inf => true
  | ninf, ninf => true
  | inf, inf => true
  | _, _ => false

/-- Absolute value; the absolute value of either infinity is plus-infinity. -/
def PFloat.abs : PFloat → PFloat
  | num a => num |a|
  | nan => nan
  | inf => inf
  | ninf => inf

/-- One raw input row with the five required columns (工站, 姓名, 效率,
標準CT, 實際CT); every cell is the text read from the CSV. -/
structure RawRow where
  station : String
  worker : String
  eff : String
  stdCT : String
  actCT : String
  deriving DecidableEq

/-- One processed row: the three numeric columns after coercion plus the
two derived cycle-time columns. -/
structure ProcRow where
  station : String
  worker : String
  eff : PFloat
  stdCT : PFloat
  actCT : PFloat
  ctDelta : PFloat
  ctDeltaRate : PFloat
  deriving DecidableEq

/-- `pd.to_numeric(cell, errors=coerce)`: parse failure becomes NaN. -/
def parseCell (s : String) : PFloat :=
  match parseNum s with
  | some q => PFloat.num q
  | none => PFloat.nan

/-- app.py line 294: the efficiency coercion
`pd.to_numeric(col.astype(str).str.rstrip(pct), errors=coerce) / 100`.
The division by 100 is unconditional: it does not depend on whether a
percent sign was present. -/
def coerceEff (s : String) : PFloat :=
  PFloat.div (parseCell (rstripPercent s)) (PFloat.num 100)

/-- app.py lines 291-302, one row of `process_dataframe`: coerce the
three numeric cells, then derive `CT差異 = 實際CT - 標準CT` and
`CT差異率 = (CT差異 / 標準CT * 100).round(1)`. -/
def processRow (r : RawRow) : ProcRow :=
  let eff := coerceEff r.eff
  let std := parseCell r.stdCT
  let act := parseCell r.actCT
  let d := PFloat.sub act std
  let rate := PFloat.round1 (PFloat.mulC (PFloat.div d std) 100)
  ⟨r.station, r.worker, eff, std, act, d, rate⟩

/-- app.py lines 287-306, `process_dataframe`: the whole-table transform.
Every operation inside the Python `try` block is total on rows that have
the five columns, so the success branch `return df, None` is always
taken: the result is the processed table together with `None` in the
error slot. No range validation and no coercion count appear anywhere in
the function. -/
def process_dataframe (df : List RawRow) : Option (List ProcRow) × Option String :=
  (some (df.map processRow), none)

/-- app.py line 411: `too_low = 0.8`. -/
def too_low : ℚ := 8/10

/-- app.py line 412: `too_high = 1.05`. -/
def too_high : ℚ := 105/100

/-- app.py line 413: `low_efficiency = df[df[eff] < too_low]`. -/
def low_efficiency (df : List ProcRow) : List ProcRow :=
  df.filter (fun r => PFloat.blt r.eff (PFloat.num too_low))

/-- app.py line 414: `high_efficiency = df[df[eff] > too_high]`. -/
def high_efficiency (df : List ProcRow) : List ProcRow :=
  df.filter (fun r => PFloat.blt (PFloat.num too_high) r.eff)

/-- app.py line 415:
`normal_efficiency = df[(df[eff] >= too_low) & (df[eff] <= too_high)]`. -/
def normal_efficiency (df : List ProcRow) : List ProcRow :=
  df.filter (fun r =>
    PFloat.ble (PFloat.num too_low) r.eff && PFloat.ble r.eff (PFloat.num too_high))

/-- app.py line 418: `ct_abnormal = df[abs(df[rate]) > 20]`. -/
def ct_abnormal (df : List ProcRow) : List ProcRow :=
  df.filter (fun r => PFloat.blt (PFloat.num 20) (PFloat.abs r.ctDeltaRate))

/-- The finite value of a cell, if it is finite. -/
def effQ : PFloat → Option ℚ
  | PFloat.num q => some q
  | _ => none

/-- The rows of one station group (`groupby` on 工站). -/
def stationRows (df : List ProcRow) (s : String) : List ProcRow :=
  df.filter (fun r => decide (r.station = s))

/-- The pandas mean of a float column: NaN entries are skipped; the mean
of an empty or all-NaN column is NaN. Parsed efficiency cells are always
finite or NaN, never infinite, so skipping every non-finite entry agrees
with pandas on every reachable column. -/
def meanQ (vs : List ℚ) : PFloat :=
  if vs.length = 0 then PFloat.nan else PFloat.num (vs.sum / (vs.length : ℚ))

/-- app.py lines 402-405 and 478: per-station mean efficiency,
`df.groupby(station)[eff].mean()` evaluated at one station key. -/
def stationEffMean (df : List ProcRow) (s : String) : PFloat :=
  meanQ ((stationRows df s).filterMap (fun r => effQ r.eff))

/-- app.py lines 402-405: per-station worker count, the `count` aggregate
of the 姓名 column; worker names are never null, so it is the group size. -/
def stationCount (df : List ProcRow) (s : String) : Nat :=
  (stationRows df s).length

/-- app.py line 463: `df[eff].mean()`, the overall average efficiency. -/
def overallEffMean (df : List ProcRow) : PFloat :=
  meanQ (df.filterMap (fun r => effQ r.eff))

/-- The group ordering of `groupby` with its default sorting: the
distinct station keys in ascending order. -/
def sortedStations (df : List ProcRow) : List String :=
  ((df.map (fun r => r.station)).toFinset).sort (fun a b => a ≤ b)

/-- Left-to-right scan keeping the first key whose value is maximal,
skipping NaN values: the semantics of `Series.idxmax` over keys in group
order. -/
def bestScan (f : String → PFloat) (l : List String) : Option (String × ℚ) :=
  l.foldl (fun acc s =>
    match effQ (f s), acc with
    | some q, none => some (s, q)
    | some q, some p => if p.2 < q then some (s, q) else some p
    | none, a => a) none

/-- app.py line 478: `df.groupby(station)[eff].mean().idxmax()`, the best
station; `none` models the all-NaN case in which pandas raises. -/
def bestStation (df : List ProcRow) : Option String :=
  (bestScan (stationEffMean df) (sortedStations df)).map (fun p => p.1)

/-- One row of the email-report path after its normalization; the
efficiency is a plain number because that path raises instead of
coercing a failed parse. -/
structure EmailRow where
  station : String
  worker : String
  eff : ℚ
  deriving DecidableEq

/-- email_utils.py line 115, one cell:
`col.astype(str).str.rstrip(pct).astype(float) / 100`; `astype(float)`
raises on a cell that does not parse, modelled by `none`. -/
def emailNormalizeRow (r : RawRow) : Option EmailRow :=
  (parseNum (rstripPercent r.eff)).map (fun q => ⟨r.station, r.worker, q / 100⟩)

/-- email_utils.py lines 112-115: the whole-column normalization of
`generate_report_data`; any single unparseable efficiency cell makes the
whole call raise (`none`). -/
def email_normalize (df : List RawRow) : Option (List EmailRow) :=
  df.mapM emailNormalizeRow

/-- email_utils.py lines 128-130: the abnormal-efficiency filter of the
report, `df[(df[eff] < 0.8) | (df[eff] > 1.2)]`. -/
def email_abnormal (rows : List EmailRow) : List EmailRow :=
  rows.filter (fun r => decide (r.eff < 8/10) || decide (12/10 < r.eff))

/-- Modelled from the spec (section 4.1, normalize step 2), for
comparison with `coerceEff`: strip surrounding whitespace, strip one
trailing percent sign, parse; divide by 100 only when the percent sign
was present, otherwise use the parsed number as-is. -/
def spec_coerceEff (s : String) : Option ℚ :=
  let cs := stripSpaces s.data
  match cs.getLast? with
  | some '%' => (parseNum (String.mk cs.dropLast)).map (fun q => q / 100)
  | _ => parseNum (String.mk cs)

/-- First row of the end-to-end scenario: station A, efficiency 95%. -/
def rowA1 : RawRow := ⟨"A", "w1", "95%", "120", "125"⟩

/-- Second row of the end-to-end scenario: station B, efficiency 85%. -/
def rowB : RawRow := ⟨"B", "w2", "85%", "180", "200"⟩

/-- Third row of the end-to-end scenario: station C, efficiency 105%. -/
def rowC : RawRow := ⟨"C", "w3", "105%", "150", "142"⟩

/-- Fourth row of the end-to-end scenario: station A, efficiency 78%. -/
def rowA2 : RawRow := ⟨"A", "w4", "78%", "120", "155"⟩

/-- The four-row end-to-end scenario input. -/
def scenarioInput : List RawRow := [rowA1, rowB, rowC, rowA2]

/-- The scenario input after `process_dataframe`. -/
def scenarioTable : List ProcRow := scenarioInput.map processRow

/-- A row whose efficiency cell is a negative percentage. -/
def rowNeg : RawRow := ⟨"A", "w", "-50%", "120", "125"⟩

/-- A row with `standard_ct = 0` and a larger actual cycle time. -/
def rowZeroCT : RawRow := ⟨"A", "w", "95%", "0", "125"⟩

/-- A row whose efficiency cell does not parse as a number. -/
def rowJunk : RawRow := ⟨"A", "w", "abc", "120", "125"⟩

/-- A row with efficiency 110%, between the two high thresholds 1.05
(dashboard) and 1.2 (email report). -/
def rowHigh : RawRow := ⟨"A", "w", "110%", "120", "125"⟩

/-- A row sitting exactly on both classification boundaries: efficiency
exactly 0.80 and cycle-time delta rate exactly 20.0. -/
def rowBound : RawRow := ⟨"A", "w", "80%", "100", "120"⟩

/-- A row whose cycle-time delta rate is exactly 20.1. -/
def rowBound2 : RawRow := ⟨"A", "w", "80%", "1000", "1201"⟩

/-- C1: the efficiency coercion of the code divides by 100
unconditionally (app.py line 294), so the percent convention parses as
the spec says but the bare-fraction convention is scaled a second time:
the string of ninety-five percent maps to 0.95, while the bare string
0.95 maps to 0.0095, not 0.95; the spec-modelled conditional coercion
maps both to 0.95. This contradicts the in-app usage documentation
(app.py lines 318 and 324), which promises that both conventions are
accepted. -/
theorem C1_unconditional_scaling :
    coerceEff "95%" = PFloat.num (19/20) ∧
    coerceEff "0.95" = PFloat.num (19/2000) ∧
    spec_coerceEff "95%" = some (19/20) ∧
    spec_coerceEff "0.95" = some (19/20) ∧
    (19/2000 : ℚ) ≠ (19/20 : ℚ) := by
  with_unfolding_all decide

/-- C2 counterexample: on the four-row scenario the high-efficiency set
is empty, because the 105% row has efficiency exactly 1.05 and the
filter is strictly greater than 1.05; the claim says the set contains
exactly that row. -/
theorem C2_counterexample :
    (processRow rowC).eff = PFloat.num (105/100) ∧
    high_efficiency scenarioTable = [] ∧
    processRow rowC ∉ high_efficiency scenarioTable := by
  with_unfolding_all decide

/-- C2 amended: on the four-row scenario the average efficiency is
exactly 0.9075, the low-efficiency set is exactly the 78% row, the
high-efficiency set is empty (1.05 is not strictly above the 1.05
threshold), and the station A mean is exactly 0.865. -/
theorem C2_scenario :
    overallEffMean scenarioTable = PFloat.num (363/400) ∧
    low_efficiency scenarioTable = [processRow rowA2] ∧
    (processRow rowA2).eff = PFloat.num (39/50) ∧
    high_efficiency scenarioTable = [] ∧
    stationEffMean scenarioTable "A" = PFloat.num (173/200) := by
  with_unfolding_all decide

/-- C3 counterexample: a table with a negative efficiency row is
processed successfully: `process_dataframe` returns the full table and
`none` in its error slot, not a failure, although the normalized
efficiency is negative. -/
theorem C3_counterexample :
    process_dataframe [rowNeg] = (some [processRow rowNeg], none) ∧
    (processRow rowNeg).eff = PFloat.num (-(1/2)) ∧
    PFloat.blt (processRow rowNeg).eff (PFloat.num 0) = true := by
  with_unfolding_all decide

/-- C3 amended: there is no range validation: even when some row has a
negative normalized efficiency, `process_dataframe` returns the full
processed table with `none` in the error slot, and the offending row is
part of the returned table. -/
theorem C3_no_range_validation (df : List RawRow) (r : RawRow)
    (hr : r ∈ df)
    (hneg : PFloat.blt (processRow r).eff (PFloat.num 0) = true) :
    process_dataframe df = (some (df.map processRow), none) ∧
    processRow r ∈ df.map processRow :=
  ⟨rfl, List.mem_map_of_mem _ hr⟩

/-- Witness for the amended C3 at the concrete negative row. -/
theorem C3_no_range_validation_witness :
    (rowNeg ∈ [rowNeg] ∧
     PFloat.blt (processRow rowNeg).eff (PFloat.num 0) = true) ∧
    (process_dataframe [rowNeg] = (some ([rowNeg].map processRow), none) ∧
     processRow rowNeg ∈ [rowNeg].map processRow) :=
  ⟨⟨by with_unfolding_all decide, by with_unfolding_all decide⟩,
   C3_no_range_validation [rowNeg] rowNeg (by with_unfolding_all decide)
     (by with_unfolding_all decide)⟩

/-- C4 counterexample: with `standard_ct = 0` and a positive cycle-time
delta the derived delta rate is plus-infinity, which is not the
missing-value marker NaN. -/
theorem C4_counterexample :
    (processRow rowZeroCT).ctDeltaRate = PFloat.inf ∧
    PFloat.inf ≠ PFloat.nan := by
  with_unfolding_all decide

/-- C4 amended: a row with `standard_ct = 0` never makes
`process_dataframe` fail (the whole table is still returned with `none`
in the error slot), but its delta rate is not the missing-value marker
in general: it is plus-infinity when the actual cycle time is positive,
minus-infinity when negative, and NaN only when the actual cycle time is
zero or itself unparsed. -/
theorem C4_zero_std_ct (r : RawRow) (h : parseNum r.stdCT = some 0) :
    process_dataframe [r] = (some [processRow r], none) ∧
    (processRow r).ctDeltaRate =
      (match parseNum r.actCT with
       | some a =>
         if 0 < a then PFloat.inf else if a < 0 then PFloat.ninf else PFloat.nan
       | none => PFloat.nan) := by
  have hstd : parseCell r.stdCT = PFloat.num 0 := by simp [parseCell, h]
  refine ⟨rfl, ?_⟩
  cases hact : parseNum r.actCT with
  | none =>
    have ha : parseCell r.actCT = PFloat.nan := by simp [parseCell, hact]
    simp [processRow, hstd, ha, PFloat.sub, PFloat.div, PFloat.mulC, PFloat.round1]
  | some a =>
    have ha : parseCell r.actCT = PFloat.num a := by simp [parseCell, hact]
    rcases lt_trichotomy 0 a with hpos | hzero | hneg
    · simp [processRow, hstd, ha, PFloat.sub, PFloat.div, PFloat.mulC,
        PFloat.round1, sub_zero, hpos]
    · simp [processRow, hstd, ha, PFloat.sub, PFloat.div, PFloat.mulC,
        PFloat.round1, sub_zero, ← hzero]
    · simp [processRow, hstd, ha, PFloat.sub, PFloat.div, PFloat.mulC,
        PFloat.round1, sub_zero, hneg, not_lt.mpr (le_of_lt hneg)]

/-- Witness for the amended C4 at the concrete zero-standard-CT row. -/
theorem C4_zero_std_ct_witness :
    parseNum rowZeroCT.stdCT = some 0 ∧
    (process_dataframe [rowZeroCT] = (some [processRow rowZeroCT], none) ∧
     (processRow rowZeroCT).ctDeltaRate =
       (match parseNum rowZeroCT.actCT with
        | some a =>
          if 0 < a then PFloat.inf else if a < 0 then PFloat.ninf else PFloat.nan
        | none => PFloat.nan)) :=
  ⟨by with_unfolding_all decide,
   C4_zero_std_ct rowZeroCT (by with_unfolding_all decide)⟩


/-- C5: classification boundaries: efficiency exactly 0.80 or exactly
1.05 lands in the normal band and in neither anomaly set (inclusive
boundaries, app.py lines 413-415), a cycle-time delta rate of absolute
value exactly 20.0 is not abnormal, and one of exactly 20.1 is
(strict inequality, app.py line 418). -/
theorem C5_boundaries (df : List ProcRow) (r : ProcRow) (hr : r ∈ df) :
    ((r.eff = PFloat.num (8/10) ∨ r.eff = PFloat.num (105/100)) →
      r ∈ normal_efficiency df ∧ r ∉ low_efficiency df ∧ r ∉ high_efficiency df) ∧
    (PFloat.abs r.ctDeltaRate = PFloat.num 20 → r ∉ ct_abnormal df) ∧
    (PFloat.abs r.ctDeltaRate = PFloat.num (201/10) → r ∈ ct_abnormal df) := by
  refine ⟨?_, ?_, ?_⟩
  · rintro (h | h) <;>
      simp [normal_efficiency, low_efficiency, high_efficiency, List.mem_filter,
        hr, h, PFloat.ble, PFloat.blt, too_low, too_high] <;> norm_num
  · intro h
    simp [ct_abnormal, List.mem_filter, h, PFloat.blt]
  · intro h
    simp [ct_abnormal, List.mem_filter, hr, h, PFloat.blt]
    norm_num

/-- Witness for C5 at two concrete rows: one sits exactly on the 0.80
efficiency boundary with delta rate exactly 20.0, the other has delta
rate exactly 20.1. -/
theorem C5_boundaries_witness :
    (processRow rowBound ∈ scenarioTable ++ [processRow rowBound, processRow rowBound2] ∧
     (processRow rowBound).eff = PFloat.num (8/10) ∧
     PFloat.abs (processRow rowBound).ctDeltaRate = PFloat.num 20 ∧
     PFloat.abs (processRow rowBound2).ctDeltaRate = PFloat.num (201/10)) ∧
    (((processRow rowBound).eff = PFloat.num (8/10) ∨
        (processRow rowBound).eff = PFloat.num (105/100)) →
      processRow rowBound ∈ normal_efficiency (scenarioTable ++ [processRow rowBound, processRow rowBound2]) ∧
      processRow rowBound ∉ low_efficiency (scenarioTable ++ [processRow rowBound, processRow rowBound2]) ∧
      processRow rowBound ∉ high_efficiency (scenarioTable ++ [processRow rowBound, processRow rowBound2])) ∧
    (PFloat.abs (processRow rowBound).ctDeltaRate = PFloat.num 20 →
      processRow rowBound ∉ ct_abnormal (scenarioTable ++ [processRow rowBound, processRow rowBound2])) ∧
    (PFloat.abs (processRow rowBound).ctDeltaRate = PFloat.num (201/10) →
      processRow rowBound ∈ ct_abnormal (scenarioTable ++ [processRow rowBound, processRow rowBound2])) :=
  ⟨⟨by with_unfolding_all decide, by with_unfolding_all decide,
    by with_unfolding_all decide, by with_unfolding_all decide⟩,
   C5_boundaries (scenarioTable ++ [processRow rowBound, processRow rowBound2])
     (processRow rowBound) (by with_unfolding_all decide)⟩

/-- C6 counterexample: a row with efficiency 110% is classified high by
the dashboard path (1.10 is above its 1.05 threshold) but is not in the
abnormal set of the email-report path, whose high threshold is 1.2
(email_utils.py line 129): the two entry points do not classify the same
normalized table identically. -/
theorem C6_counterexample :
    processRow rowHigh ∈ high_efficiency [processRow rowHigh] ∧
    email_normalize [rowHigh] = some [⟨"A", "w", 11/10⟩] ∧
    email_abnormal [⟨"A", "w", 11/10⟩] = [] := by
  with_unfolding_all decide

/-- C6 amended: the two entry points agree on the low threshold 0.80,
but the dashboard high threshold is 1.05 while the email report uses
1.2, so for any row whose efficiency lies in the interval from 1.05
(exclusive) to 1.2 (inclusive) the dashboard classifies it high while
the email report does not flag it. -/
theorem C6_threshold_mismatch (dfp : List ProcRow) (er : List EmailRow)
    (r : ProcRow) (e : EmailRow)
    (hr : r ∈ dfp) (he : e ∈ er) (heq : r.eff = PFloat.num e.eff) :
    (r ∈ low_efficiency dfp ↔ e.eff < 8/10) ∧
    (e ∈ email_abnormal er ↔ (e.eff < 8/10 ∨ 12/10 < e.eff)) ∧
    (r ∈ high_efficiency dfp ↔ 105/100 < e.eff) ∧
    ((105/100 < e.eff ∧ e.eff ≤ 12/10) →
      r ∈ high_efficiency dfp ∧ e ∉ email_abnormal er) := by
  have hlow : r ∈ low_efficiency dfp ↔ e.eff < 8/10 := by
    simp [low_efficiency, List.mem_filter, hr, heq, PFloat.blt, too_low]
  have habn : e ∈ email_abnormal er ↔ (e.eff < 8/10 ∨ 12/10 < e.eff) := by
    simp [email_abnormal, List.mem_filter, he]
  have hhigh : r ∈ high_efficiency dfp ↔ 105/100 < e.eff := by
    simp [high_efficiency, List.mem_filter, hr, heq, PFloat.blt, too_high]
  refine ⟨hlow, habn, hhigh, ?_⟩
  rintro ⟨h1, h2⟩
  refine ⟨hhigh.mpr h1, ?_⟩
  rw [habn]
  push_neg
  constructor <;> linarith

/-- Witness for the amended C6 at the 110% row. -/
theorem C6_threshold_mismatch_witness :
    (processRow rowHigh ∈ [processRow rowHigh] ∧
     (⟨"A", "w", 11/10⟩ : EmailRow) ∈ [(⟨"A", "w", 11/10⟩ : EmailRow)] ∧
     (processRow rowHigh).eff = PFloat.num ((⟨"A", "w", 11/10⟩ : EmailRow).eff)) ∧
    ((processRow rowHigh ∈ low_efficiency [processRow rowHigh] ↔
        ((⟨"A", "w", 11/10⟩ : EmailRow).eff < 8/10)) ∧
     ((⟨"A", "w", 11/10⟩ : EmailRow) ∈ email_abnormal [(⟨"A", "w", 11/10⟩ : EmailRow)] ↔
        ((⟨"A", "w", 11/10⟩ : EmailRow).eff < 8/10 ∨ 12/10 < (⟨"A", "w", 11/10⟩ : EmailRow).eff)) ∧
     (processRow rowHigh ∈ high_efficiency [processRow rowHigh] ↔
        105/100 < (⟨"A", "w", 11/10⟩ : EmailRow).eff) ∧
     ((105/100 < (⟨"A", "w", 11/10⟩ : EmailRow).eff ∧
         (⟨"A", "w", 11/10⟩ : EmailRow).eff ≤ 12/10) →
       processRow rowHigh ∈ high_efficiency [processRow rowHigh] ∧
       (⟨"A", "w", 11/10⟩ : EmailRow) ∉ email_abnormal [(⟨"A", "w", 11/10⟩ : EmailRow)])) :=
  ⟨⟨by with_unfolding_all decide, by with_unfolding_all decide, by with_unfolding_all decide⟩,
   C6_threshold_mismatch [processRow rowHigh] [⟨"A", "w", 11/10⟩]
     (processRow rowHigh) ⟨"A", "w", 11/10⟩
     (by with_unfolding_all decide) (by with_unfolding_all decide) (by with_unfolding_all decide)⟩

/-- C7 counterexample: an unparseable efficiency cell becomes NaN and
the operation succeeds, but the full return value of
`process_dataframe` is the processed table paired with `none`: no count
of coercion failures is reported anywhere in the result. -/
theorem C7_counterexample :
    process_dataframe [rowJunk] =
      (some [⟨"A", "w", PFloat.nan, PFloat.num 120, PFloat.num 125,
        PFloat.num 5, PFloat.num (21/5)⟩], none) := by
  with_unfolding_all decide

/-- C7 amended: a cell of efficiency, standard_ct or actual_ct that
fails to parse becomes the missing-value marker NaN without aborting
`process_dataframe`, but no count of such cells is reported back: the
only value returned alongside the table is the error slot, which is
`none` on success. (In the email path the same situation instead raises,
`email_normalize` returning `none`.) -/
theorem C7_coercion_not_counted (df : List RawRow) (r : RawRow)
    (hr : r ∈ df)
    (heff : parseNum (rstripPercent r.eff) = none)
    (hstd : parseNum r.stdCT = none)
    (hact : parseNum r.actCT = none) :
    (processRow r).eff = PFloat.nan ∧
    (processRow r).stdCT = PFloat.nan ∧
    (processRow r).actCT = PFloat.nan ∧
    process_dataframe df = (some (df.map processRow), none) ∧
    processRow r ∈ df.map processRow := by
  refine ⟨?_, ?_, ?_, rfl, List.mem_map_of_mem _ hr⟩
  · simp [processRow, coerceEff, parseCell, heff, PFloat.div]
  · simp [processRow, parseCell, hstd]
  · simp [processRow, parseCell, hact]

/-- Witness for the amended C7 at a row whose three numeric cells all
fail to parse. -/
theorem C7_coercion_not_counted_witness :
    ((⟨"A", "w", "abc", "x", "y"⟩ : RawRow) ∈ [(⟨"A", "w", "abc", "x", "y"⟩ : RawRow)] ∧
     parseNum (rstripPercent (⟨"A", "w", "abc", "x", "y"⟩ : RawRow).eff) = none ∧
     parseNum (⟨"A", "w", "abc", "x", "y"⟩ : RawRow).stdCT = none ∧
     parseNum (⟨"A", "w", "abc", "x", "y"⟩ : RawRow).actCT = none) ∧
    ((processRow ⟨"A", "w", "abc", "x", "y"⟩).eff = PFloat.nan ∧
     (processRow ⟨"A", "w", "abc", "x", "y"⟩).stdCT = PFloat.nan ∧
     (processRow ⟨"A", "w", "abc", "x", "y"⟩).actCT = PFloat.nan ∧
     process_dataframe [⟨"A", "w", "abc", "x", "y"⟩] =
       (some ([(⟨"A", "w", "abc", "x", "y"⟩ : RawRow)].map processRow), none) ∧
     processRow ⟨"A", "w", "abc", "x", "y"⟩ ∈
       [(⟨"A", "w", "abc", "x", "y"⟩ : RawRow)].map processRow) :=
  ⟨⟨by with_unfolding_all decide, by with_unfolding_all decide, by with_unfolding_all decide,
    by with_unfolding_all decide⟩,
   C7_coercion_not_counted [⟨"A", "w", "abc", "x", "y"⟩] ⟨"A", "w", "abc", "x", "y"⟩
     (by with_unfolding_all decide) (by with_unfolding_all decide) (by with_unfolding_all decide)
     (by with_unfolding_all decide)⟩

/-- The strict comparison of two finite cells is the rational one. -/
theorem blt_num_iff (a b : ℚ) :
    PFloat.blt (PFloat.num a) (PFloat.num b) = true ↔ a < b := by
  simp [PFloat.blt]

/-- The non-strict comparison of two finite cells is the rational one. -/
theorem ble_num_iff (a b : ℚ) :
    PFloat.ble (PFloat.num a) (PFloat.num b) = true ↔ a ≤ b := by
  simp [PFloat.ble]

/-- C9: the three efficiency buckets are pairwise disjoint, and a row
whose efficiency is the missing-value marker NaN belongs to none of
them, because every comparison with NaN is false: with unparseable cells
present the buckets do not cover the whole table. -/
theorem C9_bucket_disjointness (df : List ProcRow) (r : ProcRow) (hr : r ∈ df) :
    (¬(r ∈ low_efficiency df ∧ r ∈ normal_efficiency df)) ∧
    (¬(r ∈ normal_efficiency df ∧ r ∈ high_efficiency df)) ∧
    (¬(r ∈ low_efficiency df ∧ r ∈ high_efficiency df)) ∧
    (r.eff = PFloat.nan →
      r ∉ low_efficiency df ∧ r ∉ normal_efficiency df ∧ r ∉ high_efficiency df) := by
  have hl : (r ∈ low_efficiency df) ↔
      PFloat.blt r.eff (PFloat.num too_low) = true := by
    simp [low_efficiency, List.mem_filter, hr]
  have hn : (r ∈ normal_efficiency df) ↔
      (PFloat.ble (PFloat.num too_low) r.eff = true ∧
       PFloat.ble r.eff (PFloat.num too_high) = true) := by
    simp [normal_efficiency, List.mem_filter, hr]
  have hh : (r ∈ high_efficiency df) ↔
      PFloat.blt (PFloat.num too_high) r.eff = true := by
    simp [high_efficiency, List.mem_filter, hr]
  rw [hl, hn, hh]
  cases heff : r.eff with
  | num q =>
    simp only [blt_num_iff, ble_num_iff, too_low, too_high]
    refine ⟨?_, ?_, ?_, ?_⟩
    · rintro ⟨h1, h2, h3⟩; linarith
    · rintro ⟨⟨h1, h2⟩, h3⟩; linarith
    · rintro ⟨h1, h2⟩; linarith
    · intro h; exact PFloat.noConfusion h
  | nan => simp [PFloat.blt, PFloat.ble]
  | inf => simp [PFloat.blt, PFloat.ble]
  | ninf => simp [PFloat.blt, PFloat.ble]

/-- Witness for C9 at a concrete table holding one NaN-efficiency row. -/
theorem C9_bucket_disjointness_witness :
    processRow rowJunk ∈ scenarioTable ++ [processRow rowJunk] ∧
    ((¬(processRow rowJunk ∈ low_efficiency (scenarioTable ++ [processRow rowJunk]) ∧
        processRow rowJunk ∈ normal_efficiency (scenarioTable ++ [processRow rowJunk]))) ∧
     (¬(processRow rowJunk ∈ normal_efficiency (scenarioTable ++ [processRow rowJunk]) ∧
        processRow rowJunk ∈ high_efficiency (scenarioTable ++ [processRow rowJunk]))) ∧
     (¬(processRow rowJunk ∈ low_efficiency (scenarioTable ++ [processRow rowJunk]) ∧
        processRow rowJunk ∈ high_efficiency (scenarioTable ++ [processRow rowJunk]))) ∧
     ((processRow rowJunk).eff = PFloat.nan →
       processRow rowJunk ∉ low_efficiency (scenarioTable ++ [processRow rowJunk]) ∧
       processRow rowJunk ∉ normal_efficiency (scenarioTable ++ [processRow rowJunk]) ∧
       processRow rowJunk ∉ high_efficiency (scenarioTable ++ [processRow rowJunk]))) :=
  ⟨by with_unfolding_all decide,
   C9_bucket_disjointness (scenarioTable ++ [processRow rowJunk]) (processRow rowJunk)
     (by with_unfolding_all decide)⟩

/-- C10: re-normalization is not the identity: if a first pass coerced
some efficiency cell to the finite value e, then feeding the pipeline
any cell whose text parses back to e (as the downloadable processed CSV
renders it) coerces it to e divided by 100 a second time, which differs
from e whenever e is nonzero. -/
theorem C10_not_idempotent (r1 r2 : RawRow) (e : ℚ)
    (h1 : (processRow r1).eff = PFloat.num e)
    (h2 : parseNum (rstripPercent r2.eff) = some e) :
    (processRow r2).eff = PFloat.num (e/100) ∧
    (e ≠ 0 → PFloat.num (e/100) ≠ PFloat.num e) := by
  constructor
  · simp [processRow, coerceEff, parseCell, h2, PFloat.div]
  · intro hne hcontra
    have he : e/100 = e := by injection hcontra
    have : e * (1/100) = e * 1 := by
      rw [mul_one]
      calc e * (1/100) = e/100 := by ring
        _ = e := he
    have h100 : (1:ℚ)/100 = 1 := by
      exact mul_left_cancel₀ hne this
    norm_num at h100

/-- Witness for C10: the 95% row coerces to 0.95; re-feeding the cell
text 0.95 (its CSV rendering) coerces to 0.0095, a different value. -/
theorem C10_not_idempotent_witness :
    ((processRow rowA1).eff = PFloat.num (19/20) ∧
     parseNum (rstripPercent (⟨"A", "w1", "0.95", "120", "125"⟩ : RawRow).eff) =
       some (19/20)) ∧
    ((processRow ⟨"A", "w1", "0.95", "120", "125"⟩).eff = PFloat.num ((19/20)/100) ∧
     ((19/20 : ℚ) ≠ 0 → PFloat.num ((19/20 : ℚ)/100) ≠ PFloat.num (19/20))) :=
  ⟨⟨by with_unfolding_all decide, by with_unfolding_all decide⟩,
   C10_not_idempotent rowA1 ⟨"A", "w1", "0.95", "120", "125"⟩ (19/20)
     (by with_unfolding_all decide) (by with_unfolding_all decide)⟩

/-- The scenario table with its first two rows swapped, a row-reordering
of `scenarioTable`. -/
def scenarioSwapped : List ProcRow :=
  [processRow rowB, processRow rowA1, processRow rowC, processRow rowA2]

/-- C8: aggregation is invariant under row-reordering: two tables that
are permutations of each other yield the same mean efficiency and the
same worker count for every station, and even the best-station
selection coincides, because the `groupby` key ordering is the sorted
distinct station list (independent of row order) and `idxmax` keeps the
first key of maximal mean in that ordering on ties. -/
theorem C8_perm_invariance (df1 df2 : List ProcRow) (h : df1.Perm df2) :
    (∀ s, stationEffMean df1 s = stationEffMean df2 s ∧
      stationCount df1 s = stationCount df2 s) ∧
    bestStation df1 = bestStation df2 := by
  have hrows : ∀ s, (stationRows df1 s).Perm (stationRows df2 s) := by
    intro s
    exact h.filter _
  have hmean : ∀ s, stationEffMean df1 s = stationEffMean df2 s := by
    intro s
    have hq : ((stationRows df1 s).filterMap (fun r => effQ r.eff)).Perm
        ((stationRows df2 s).filterMap (fun r => effQ r.eff)) :=
      (hrows s).filterMap _
    unfold stationEffMean meanQ
    rw [hq.length_eq, hq.sum_eq]
  have hcount : ∀ s, stationCount df1 s = stationCount df2 s := by
    intro s
    exact (hrows s).length_eq
  have hsorted : sortedStations df1 = sortedStations df2 := by
    unfold sortedStations
    congr 1
    ext a
    simp only [List.mem_toFinset]
    exact (h.map _).mem_iff
  refine ⟨fun s => ⟨hmean s, hcount s⟩, ?_⟩
  unfold bestStation
  rw [hsorted, funext hmean]

/-- Witness for C8 on two concrete reorderings of the scenario table. -/
theorem C8_perm_invariance_witness :
    scenarioTable.Perm scenarioSwapped ∧
    ((∀ s, stationEffMean scenarioTable s = stationEffMean scenarioSwapped s ∧
        stationCount scenarioTable s = stationCount scenarioSwapped s) ∧
     bestStation scenarioTable = bestStation scenarioSwapped) :=
  ⟨by with_unfolding_all decide,
   C8_perm_invariance scenarioTable scenarioSwapped (by with_unfolding_all decide)⟩
